import Mathlib

/-!
Shallow embedding of the x-underclass-preventer browser extension.

The session state machine lives in `src/background.js`; the overlay
presenter logic lives in `src/content-script.js` (which contains three
concatenated script variants).  Timestamps and millisecond quantities are
modelled as `Nat`; every JavaScript `Math.max(0, a - b)` on such
quantities coincides with truncated `Nat` subtraction.  JavaScript
nullish fields (`null`/`undefined`) are modelled with `Option`, and the
falsiness of the number `0` (`!state.nextTransition`) is modelled
explicitly by the `truthy` predicate.
-/

namespace XUnderclass

/-- `status` field of a `SessionState` (background.js line 10). -/
inductive Status where
  | idle
  | running
  | paused
  | break_ready
deriving DecidableEq

/-- `phase` field of a `SessionState` (background.js line 11).
`brk` renders the source's "break" phase (`break` is reserved in Lean). -/
inductive Phase where
  | focus
  | brk
deriving DecidableEq

/-- The persisted singleton session state (background.js `DEFAULT_STATE`
shape, lines 9-17). -/
structure SessionState where
  status : Status
  phase : Phase
  focusMinutes : Nat
  breakMinutes : Nat
  cycleStart : Option Nat
  nextTransition : Option Nat
  remainingMs : Option Nat
deriving DecidableEq

/-- `DEFAULT_STATE` (background.js lines 9-17). -/
def DEFAULT_STATE : SessionState :=
  { status := Status.idle
    phase := Phase.focus
    focusMinutes := 25
    breakMinutes := 5
    cycleStart := none
    nextTransition := none
    remainingMs := none }

/-- JavaScript truthiness of an optional timestamp: `null`/`undefined`
and the number `0` are falsy (`!state.nextTransition`). -/
def truthy (o : Option Nat) : Prop :=
  match o with
  | none => False
  | some t => t ≠ 0

instance (o : Option Nat) : Decidable (truthy o) :=
  match o with
  | none => Decidable.isFalse id
  | some t => inferInstanceAs (Decidable (t ≠ 0))

/-- `typeof x === "number" && x <= now` on an optional timestamp
(background.js lines 110-119, 343-346). -/
def expired (o : Option Nat) (now : Nat) : Prop :=
  match o with
  | none => False
  | some t => t ≤ now

instance (o : Option Nat) (now : Nat) : Decidable (expired o now) :=
  match o with
  | none => Decidable.isFalse id
  | some t => inferInstanceAs (Decidable (t ≤ now))

/-- `toMs` (background.js lines 387-390): minutes are rounded and floored
to a minimum of 1, then scaled to milliseconds.  On `Nat` input the
`Math.round` is the identity. -/
def toMs (minutes : Nat) : Nat :=
  max 1 minutes * 60000

/-- `minutesFromMs` (background.js lines 392-394): `Math.round(ms/60000)`
floored to a minimum of 1; rounding half-up on nonnegative reals is
`(ms + 30000) / 60000` in `Nat` arithmetic. -/
def minutesFromMs (ms : Nat) : Nat :=
  max 1 ((ms + 30000) / 60000)

/-- `ensureState` (background.js lines 75-83): the stored record merged
over `DEFAULT_STATE`.  For a complete stored record the merge is the
identity; a missing record yields (and persists) the defaults. -/
def ensureState (stored : Option SessionState) : SessionState :=
  stored.getD DEFAULT_STATE

/-- The bounded catch-up loop of `normalizeState` (background.js lines
361-377), recursing on the remaining iteration budget
(`MAX_ITERATIONS = 1000`). -/
def catchUp (focusMs breakMs now : Nat) :
    Nat → Phase → Option Nat → Option Nat → Phase × Option Nat × Option Nat
  | 0, ph, cs, nt => (ph, cs, nt)
  | Nat.succ fuel, ph, cs, nt =>
    match nt with
    | some t =>
      if t ≤ now then
        match ph with
        | Phase.focus => catchUp focusMs breakMs now fuel Phase.brk (some t) (some (t + breakMs))
        | Phase.brk => catchUp focusMs breakMs now fuel Phase.focus (some t) (some (t + focusMs))
      else (ph, cs, nt)
    | none => (ph, cs, nt)

/-- `normalizeState` (background.js lines 327-385). -/
def normalizeState (now : Nat) (s : SessionState) : SessionState :=
  if s.status = Status.break_ready then
    match s.remainingMs with
    | some _ => s
    | none => { s with remainingMs := some (toMs s.breakMinutes) }
  else if ¬ (s.status = Status.running ∧ truthy s.nextTransition) then s
  else if s.phase = Phase.focus ∧ expired s.nextTransition now then
    { s with status := Status.break_ready
             phase := Phase.brk
             cycleStart := none
             nextTransition := none
             remainingMs := some (toMs s.breakMinutes) }
  else
    let r := catchUp (toMs s.focusMinutes) (toMs s.breakMinutes) now 1000
      s.phase s.cycleStart s.nextTransition
    { s with phase := r.1, cycleStart := r.2.1, nextTransition := r.2.2 }

/-- `transitionToBreakReady` (background.js lines 448-463). -/
def transitionToBreakReady (s : SessionState) : SessionState :=
  { s with status := Status.break_ready
           phase := Phase.brk
           cycleStart := none
           nextTransition := none
           remainingMs := some (toMs s.breakMinutes) }

/-- `transitionToNextFocus` (background.js lines 465-481). -/
def transitionToNextFocus (now : Nat) (s : SessionState) : SessionState :=
  { s with status := Status.running
           phase := Phase.focus
           cycleStart := some now
           nextTransition := some (now + toMs s.focusMinutes)
           remainingMs := none }

/-- `handleAlarm` (background.js lines 104-161): the state persisted at
the end of the alarm handler.  The handler's several `Date.now()` reads
are modelled by the single instant `now`. -/
def handleAlarm (now : Nat) (s : SessionState) : SessionState :=
  let normalized := normalizeState now s
  if s.status = Status.running ∧ s.phase = Phase.focus ∧ expired s.nextTransition now then
    transitionToBreakReady normalized
  else if (s.status = Status.running ∧ s.phase = Phase.brk ∧ expired s.nextTransition now) ∨
      (normalized.status = Status.running ∧ normalized.phase = Phase.brk ∧
        expired normalized.nextTransition now) then
    transitionToNextFocus now normalized
  else if ¬ (normalized.status = Status.running ∧ truthy normalized.nextTransition) then
    normalized
  else if ¬ expired normalized.nextTransition now then
    normalized
  else if normalized.phase = Phase.focus then
    transitionToBreakReady normalized
  else
    transitionToNextFocus now normalized

/-- `adjustRunningDurations` (background.js lines 313-325). -/
def adjustRunningDurations (now : Nat) (s : SessionState) (focusMs breakMs : Nat) :
    SessionState :=
  let durationMs := if s.phase = Phase.focus then focusMs else breakMs
  let elapsed := now - (s.cycleStart.getD now)
  let clampedElapsed := min elapsed durationMs
  let remaining := durationMs - clampedElapsed
  { s with cycleStart := some (now - clampedElapsed)
           nextTransition := some (now + remaining) }

/-- `setDurations` (background.js lines 163-196), applied to the ensured
state; the optional request fields default to the stored minutes
(`request.focusMinutes ?? state.focusMinutes`). -/
def setDurations (now : Nat) (focusMinutes breakMinutes : Option Nat)
    (s : SessionState) : SessionState :=
  let focusMs := toMs (focusMinutes.getD s.focusMinutes)
  let breakMs := toMs (breakMinutes.getD s.breakMinutes)
  let updated := { s with focusMinutes := minutesFromMs focusMs
                          breakMinutes := minutesFromMs breakMs }
  if s.status = Status.running then
    adjustRunningDurations now updated focusMs breakMs
  else if s.status = Status.paused then
    let durationMs := if updated.phase = Phase.focus then focusMs else breakMs
    { updated with remainingMs := some (min (s.remainingMs.getD durationMs) durationMs) }
  else if s.status = Status.break_ready then
    { updated with phase := Phase.brk
                   status := Status.break_ready
                   remainingMs := some breakMs }
  else updated

/-- `startSession` (background.js lines 198-219). -/
def startSession (now : Nat) (focusMinutes breakMinutes : Option Nat)
    (s : SessionState) : SessionState :=
  let focusMs := toMs (focusMinutes.getD s.focusMinutes)
  let breakMs := toMs (breakMinutes.getD s.breakMinutes)
  { s with status := Status.running
           phase := Phase.focus
           focusMinutes := minutesFromMs focusMs
           breakMinutes := minutesFromMs breakMs
           cycleStart := some now
           nextTransition := some (now + focusMs)
           remainingMs := none }

/-- `startBreak` (background.js lines 221-243). -/
def startBreak (now : Nat) (s : SessionState) : SessionState :=
  if s.status = Status.break_ready then
    { s with status := Status.running
             phase := Phase.brk
             cycleStart := some now
             nextTransition := some (now + toMs s.breakMinutes)
             remainingMs := none }
  else s

/-- `pauseSession` (background.js lines 245-263): active only when
running with a truthy `nextTransition`; captures
`remainingMs = Math.max(0, nextTransition - now)`. -/
def pauseSession (now : Nat) (s : SessionState) : SessionState :=
  if s.status = Status.running ∧ truthy s.nextTransition then
    { s with status := Status.paused
             nextTransition := none
             remainingMs := some (s.nextTransition.getD 0 - now) }
  else s

/-- `resumeSession` (background.js lines 265-295). -/
def resumeSession (now : Nat) (s : SessionState) : SessionState :=
  if s.status = Status.paused then
    let focusMs := toMs s.focusMinutes
    let breakMs := toMs s.breakMinutes
    let durationMs := if s.phase = Phase.focus then focusMs else breakMs
    let remainingMs := min (s.remainingMs.getD durationMs) durationMs
    { s with status := Status.running
             cycleStart := some (now - (durationMs - remainingMs))
             nextTransition := some (now + remainingMs)
             remainingMs := none }
  else s

/-- `stopSession` (background.js lines 297-311). -/
def stopSession (s : SessionState) : SessionState :=
  { s with status := Status.idle
           phase := Phase.focus
           cycleStart := none
           nextTransition := none
           remainingMs := none }

/-- A user-defined shortcut, as sent by the content script's
`saveShortcutsToStorage` (content-script.js lines 806-820). -/
structure Shortcut where
  name : String
  url : String
  color : String
deriving DecidableEq

/-- The message types a presenter can send to the background worker
(background.js `onMessage` switch, lines 24-66, plus the shortcut
messages emitted by content-script.js lines 790-820). -/
inductive Request where
  | getState
  | setDurations (focusMinutes breakMinutes : Option Nat)
  | startSession (focusMinutes breakMinutes : Option Nat)
  | startBreak
  | pauseSession
  | resumeSession
  | stopSession
  | getShortcuts
  | saveShortcuts (shortcuts : List Shortcut)
deriving DecidableEq

/-- The background `onMessage` listener (background.js lines 24-66):
given the persisted record, a handled request yields the responded state
and the new persisted record; an unhandled request falls through to the
`default: return false` branch, so no response is ever sent (`none`). -/
def runCommand (now : Nat) (req : Request) (stored : Option SessionState) :
    Option (SessionState × Option SessionState) :=
  match req with
  | Request.getState =>
    let s := ensureState stored
    some (s, some s)
  | Request.setDurations f b =>
    let s := setDurations now f b (ensureState stored)
    some (s, some s)
  | Request.startSession f b =>
    let s := startSession now f b (ensureState stored)
    some (s, some s)
  | Request.startBreak =>
    let s := startBreak now (ensureState stored)
    some (s, some s)
  | Request.pauseSession =>
    let s := pauseSession now (ensureState stored)
    some (s, some s)
  | Request.resumeSession =>
    let s := resumeSession now (ensureState stored)
    some (s, some s)
  | Request.stopSession =>
    let s := stopSession (ensureState stored)
    some (s, some s)
  | Request.getShortcuts => none
  | Request.saveShortcuts _ => none

/-- `canDismissOverlay` of the first content-script variant
(content-script.js lines 404-410). -/
def canDismissOverlay (latestState : Option SessionState) : Bool :=
  match latestState with
  | none => true
  | some s =>
    if s.status = Status.running ∧ s.phase = Phase.focus then false
    else if s.status = Status.paused then false
    else if s.status = Status.break_ready then false
    else true

/-- The inline close-button guard of the second content-script variant
(content-script.js lines 1362-1368): dismissal proceeds unless the
cached state has status running (either phase) or paused. -/
def canDismissOverlayV2 (latestState : Option SessionState) : Bool :=
  match latestState with
  | none => true
  | some s =>
    if s.status = Status.running ∨ s.status = Status.paused then false
    else true

/-- The presenter's `loadShortcuts` result (content-script.js lines
790-804): the `shortcuts` field of the background's response, or `[]`
when no response arrives (`chrome.runtime.lastError`) or the field is
absent. -/
def loadShortcuts (response : Option (List Shortcut)) : List Shortcut :=
  response.getD []

/-- The weakened phase invariant that the operations actually preserve:
a break phase never occurs with status idle. -/
def breakImpliesActive (s : SessionState) : Prop :=
  s.phase = Phase.brk → s.status ≠ Status.idle

/-- A persisted running focus state whose transition time has already
elapsed at read time 2000. -/
def c1_state : SessionState :=
  { status := Status.running
    phase := Phase.focus
    focusMinutes := 25
    breakMinutes := 5
    cycleStart := some 0
    nextTransition := some 1000
    remainingMs := none }

/-- A running break state whose break ended 61000 ms ago, so the
catch-up loop crosses one full focus interval. -/
def c2_state : SessionState :=
  { status := Status.running
    phase := Phase.brk
    focusMinutes := 1
    breakMinutes := 1
    cycleStart := some 0
    nextTransition := some 60000
    remainingMs := none }

/-- A running break state. -/
def c3_state : SessionState :=
  { status := Status.running
    phase := Phase.brk
    focusMinutes := 25
    breakMinutes := 5
    cycleStart := some 0
    nextTransition := some 600000
    remainingMs := none }

/-- A cached presenter state in an active break (status running, phase
break). -/
def c5_state : SessionState :=
  { status := Status.running
    phase := Phase.brk
    focusMinutes := 25
    breakMinutes := 5
    cycleStart := some 0
    nextTransition := some 300000
    remainingMs := none }

/-- A running focus state that has been running for 600000 ms when the
durations are shrunk to 1 minute. -/
def c6_state : SessionState :=
  { status := Status.running
    phase := Phase.focus
    focusMinutes := 25
    breakMinutes := 5
    cycleStart := some 0
    nextTransition := some 1500000
    remainingMs := none }

/-- A running focus state whose remaining time (captured at pause)
exceeds the configured focus duration. -/
def c7_state : SessionState :=
  { status := Status.running
    phase := Phase.focus
    focusMinutes := 1
    breakMinutes := 1
    cycleStart := some 0
    nextTransition := some 1000000
    remainingMs := none }

end XUnderclass

namespace XUnderclass

lemma toMs_of_le {m : Nat} (h : 1 ≤ m) : toMs m = m * 60000 := by
  unfold toMs
  rw [Nat.max_eq_right h]

lemma minutesFromMs_toMs (m : Nat) : minutesFromMs (toMs m) = max 1 m := by
  unfold minutesFromMs toMs
  have h1 : (max 1 m * 60000 + 30000) / 60000 = max 1 m := by
    rw [Nat.mul_comm, Nat.mul_add_div (by norm_num)]
    norm_num
  rw [h1]
  exact Nat.max_eq_right (Nat.le_max_left 1 m)

lemma toMs_idem (m : Nat) : toMs (minutesFromMs (toMs m)) = toMs m := by
  rw [minutesFromMs_toMs]
  unfold toMs
  rw [Nat.max_eq_right (Nat.le_max_left 1 m)]

lemma toMs_pos (m : Nat) : 0 < toMs m := by
  unfold toMs
  exact Nat.mul_pos (Nat.lt_of_lt_of_le Nat.one_pos (Nat.le_max_left 1 m)) (by norm_num)

/-- Claim C4 (code_bug evidence): the background message listener has no
case for `GET_SHORTCUTS` or `SAVE_SHORTCUTS` — both fall through to the
`default: return false` branch, so the state machine never responds with
a shortcut list, and the presenter's fallback yields the empty list. -/
theorem c4_shortcuts_unhandled (now : Nat) (stored : Option SessionState)
    (l : List Shortcut) :
    runCommand now Request.getShortcuts stored = none ∧
    runCommand now (Request.saveShortcuts l) stored = none ∧
    loadShortcuts none = ([] : List Shortcut) :=
  ⟨rfl, rfl, rfl⟩

/-- Claim C8 (confirmed): commands issued in an invalid state return the
unchanged current state — `pauseSession` when not running,
`resumeSession` when not paused, `startBreak` when not break_ready — and
`pauseSession` applied twice in a row yields the same state both times. -/
theorem c8_invalid_commands_noop (s : SessionState) (now now2 : Nat) :
    (s.status ≠ Status.running → pauseSession now s = s) ∧
    (s.status ≠ Status.paused → resumeSession now s = s) ∧
    (s.status ≠ Status.break_ready → startBreak now s = s) ∧
    pauseSession now2 (pauseSession now s) = pauseSession now s := by
  refine ⟨?_, ?_, ?_, ?_⟩
  · intro h
    unfold pauseSession
    rw [if_neg]
    rintro ⟨h1, -⟩
    exact h h1
  · intro h
    unfold resumeSession
    rw [if_neg h]
  · intro h
    unfold startBreak
    rw [if_neg h]
  · by_cases hc : s.status = Status.running ∧ truthy s.nextTransition
    · unfold pauseSession
      rw [if_pos hc, if_neg]
      rintro ⟨h1, -⟩
      exact absurd h1 (by simp)
    · unfold pauseSession
      rw [if_neg hc, if_neg hc]

/-- Witness for C8 at the idle default state. -/
theorem c8_witness :
    pauseSession 3 DEFAULT_STATE = DEFAULT_STATE ∧
    resumeSession 3 DEFAULT_STATE = DEFAULT_STATE ∧
    startBreak 3 DEFAULT_STATE = DEFAULT_STATE ∧
    pauseSession 7 (pauseSession 3 DEFAULT_STATE) = pauseSession 3 DEFAULT_STATE :=
  ⟨(c8_invalid_commands_noop DEFAULT_STATE 3 7).1 (by decide),
   (c8_invalid_commands_noop DEFAULT_STATE 3 7).2.1 (by decide),
   (c8_invalid_commands_noop DEFAULT_STATE 3 7).2.2.1 (by decide),
   (c8_invalid_commands_noop DEFAULT_STATE 3 7).2.2.2⟩

/-- Claim C9 (confirmed): for integer focus and break minutes at least 1,
`startSession` from any prior state yields status running, phase focus,
cycleStart now, remainingMs cleared, nextTransition at cycleStart plus
focusMinutes times 60000, and a subsequent GET_STATE read of the
persisted record returns that same state. -/
theorem c9_startSession_spec (s : SessionState) (now f b : Nat)
    (hf : 1 ≤ f) (hb : 1 ≤ b) :
    (startSession now (some f) (some b) s).status = Status.running ∧
    (startSession now (some f) (some b) s).phase = Phase.focus ∧
    (startSession now (some f) (some b) s).cycleStart = some now ∧
    (startSession now (some f) (some b) s).remainingMs = none ∧
    (startSession now (some f) (some b) s).nextTransition = some (now + f * 60000) ∧
    (startSession now (some f) (some b) s).focusMinutes = f ∧
    (startSession now (some f) (some b) s).breakMinutes = b ∧
    runCommand now Request.getState (some (startSession now (some f) (some b) s)) =
      some (startSession now (some f) (some b) s,
        some (startSession now (some f) (some b) s)) := by
  refine ⟨rfl, rfl, rfl, rfl, ?_, ?_, ?_, rfl⟩
  · show some (now + toMs f) = some (now + f * 60000)
    rw [toMs_of_le hf]
  · show minutesFromMs (toMs f) = f
    rw [minutesFromMs_toMs, Nat.max_eq_right hf]
  · show minutesFromMs (toMs b) = b
    rw [minutesFromMs_toMs, Nat.max_eq_right hb]

/-- Witness for C9: starting a 25/5 session at time 100. -/
theorem c9_witness :
    (startSession 100 (some 25) (some 5) DEFAULT_STATE).status = Status.running ∧
    (startSession 100 (some 25) (some 5) DEFAULT_STATE).nextTransition =
      some (100 + 25 * 60000) :=
  ⟨(c9_startSession_spec DEFAULT_STATE 100 25 5 (by decide) (by decide)).1,
   (c9_startSession_spec DEFAULT_STATE 100 25 5 (by decide) (by decide)).2.2.2.2.1⟩

/-- Claim C10 (confirmed): `stopSession` resets status, phase and the
three time fields but leaves the configured focus and break minutes
unchanged; `pauseSession` leaves focusMinutes, breakMinutes, phase and
cycleStart unchanged in both its branches. -/
theorem c10_stop_pause_frame (s : SessionState) (now : Nat) :
    (stopSession s).focusMinutes = s.focusMinutes ∧
    (stopSession s).breakMinutes = s.breakMinutes ∧
    (stopSession s).status = Status.idle ∧
    (stopSession s).phase = Phase.focus ∧
    (stopSession s).cycleStart = none ∧
    (stopSession s).nextTransition = none ∧
    (stopSession s).remainingMs = none ∧
    (pauseSession now s).focusMinutes = s.focusMinutes ∧
    (pauseSession now s).breakMinutes = s.breakMinutes ∧
    (pauseSession now s).phase = s.phase ∧
    (pauseSession now s).cycleStart = s.cycleStart := by
  refine ⟨rfl, rfl, rfl, rfl, rfl, rfl, rfl, ?_, ?_, ?_, ?_⟩ <;>
    (unfold pauseSession; split <;> rfl)

end XUnderclass

namespace XUnderclass

/-- Claim C5 counterexample: in the second content-script variant the
close-button guard refuses dismissal for any running status, so an
active break (status running, phase break) does not permit manual
dismissal there, contrary to the claim; the first variant does permit
it. -/
theorem c5_counterexample :
    c5_state.status = Status.running ∧ c5_state.phase = Phase.brk ∧
    canDismissOverlayV2 (some c5_state) = false ∧
    canDismissOverlay (some c5_state) = true := by
  decide

/-- Claim C5 (corrected): the first variant's `canDismissOverlay`
refuses dismissal exactly when status is (running, focus), paused, or
break_ready — so idle and an active break permit dismissal — while the
second variant's close-button guard refuses exactly when status is
running (either phase) or paused, so there an active break does not
permit dismissal and break_ready does. -/
theorem c5_dismissal_guards (s : SessionState) :
    (canDismissOverlay (some s) = false ↔
      (s.status = Status.running ∧ s.phase = Phase.focus) ∨
      s.status = Status.paused ∨ s.status = Status.break_ready) ∧
    (canDismissOverlayV2 (some s) = false ↔
      s.status = Status.running ∨ s.status = Status.paused) := by
  obtain ⟨st, ph, fm, bm, cs, nt, rm⟩ := s
  cases st <;> cases ph <;>
    simp [canDismissOverlay, canDismissOverlayV2]

/-- Claim C7 counterexample: pausing `c7_state` at time 0 captures
remainingMs = 1000000, but resuming at time 0 clamps the remaining time
to the configured focus duration (60000 ms), so nextTransition is
now + 60000, not now + remainingMs-at-pause. -/
theorem c7_counterexample :
    c7_state.status = Status.running ∧
    (pauseSession 0 c7_state).remainingMs = some 1000000 ∧
    (resumeSession 0 (pauseSession 0 c7_state)).nextTransition = some 60000 ∧
    (60000 : Nat) ≠ 0 + 1000000 := by
  decide

/-- Claim C7 (corrected): for a running state with a truthy
nextTransition, pause followed by resume yields status running and the
phase unchanged, with nextTransition equal to the resume time plus the
remaining time captured at pause clamped to the configured duration of
the current phase; the claimed equality nextTransition = now-at-resume +
remainingMs-at-pause holds exactly when that captured remainder does
not exceed the phase duration. -/
theorem c7_pause_resume_roundtrip (s : SessionState) (now1 now2 nt : Nat)
    (hst : s.status = Status.running) (hnt : s.nextTransition = some nt)
    (h0 : nt ≠ 0) :
    (pauseSession now1 s).status = Status.paused ∧
    (pauseSession now1 s).remainingMs = some (nt - now1) ∧
    (resumeSession now2 (pauseSession now1 s)).status = Status.running ∧
    (resumeSession now2 (pauseSession now1 s)).phase = s.phase ∧
    (resumeSession now2 (pauseSession now1 s)).nextTransition =
      some (now2 + min (nt - now1)
        (if s.phase = Phase.focus then toMs s.focusMinutes else toMs s.breakMinutes)) ∧
    (nt - now1 ≤ (if s.phase = Phase.focus then toMs s.focusMinutes
        else toMs s.breakMinutes) →
      (resumeSession now2 (pauseSession now1 s)).nextTransition =
        some (now2 + (nt - now1))) := by
  obtain ⟨st, ph, fm, bm, cs, nto, rm⟩ := s
  simp only at hst hnt
  subst hst
  subst hnt
  have htr : truthy (some nt) := h0
  have hp : pauseSession now1
      (SessionState.mk Status.running ph fm bm cs (some nt) rm) =
      SessionState.mk Status.paused ph fm bm cs none (some (nt - now1)) := by
    unfold pauseSession
    rw [if_pos ⟨rfl, htr⟩]
    rfl
  rw [hp]
  have hr : resumeSession now2
      (SessionState.mk Status.paused ph fm bm cs none (some (nt - now1))) =
      SessionState.mk Status.running ph fm bm
        (some (now2 - ((if ph = Phase.focus then toMs fm else toMs bm) -
          min (nt - now1) (if ph = Phase.focus then toMs fm else toMs bm))))
        (some (now2 + min (nt - now1)
          (if ph = Phase.focus then toMs fm else toMs bm)))
        none := by
    unfold resumeSession
    rw [if_pos rfl]
    rfl
  rw [hr]
  refine ⟨rfl, rfl, rfl, rfl, rfl, ?_⟩
  intro hle
  rw [Nat.min_eq_left hle]

/-- Witness for C7: a 25-minute focus session paused at 100000 ms and
resumed at 200000 ms. -/
theorem c7_witness :
    (resumeSession 200000 (pauseSession 100000
      { c7_state with focusMinutes := 25, nextTransition := some 1500000 })).nextTransition =
      some (200000 + (1500000 - 100000)) :=
  (c7_pause_resume_roundtrip
    { c7_state with focusMinutes := 25, nextTransition := some 1500000 }
    100000 200000 1500000 rfl rfl (by decide)).2.2.2.2.2 (by decide)

/-- Claim C3 counterexample: `c3_state` satisfies the claimed invariant
(phase break with status running), yet `pauseSession` maps it to status
paused with phase still break — so in status paused the phase is not
always focus, refuting the claimed invariant's preservation. -/
theorem c3_counterexample :
    c3_state.phase = Phase.brk ∧ c3_state.status = Status.running ∧
    (pauseSession 0 c3_state).status = Status.paused ∧
    (pauseSession 0 c3_state).phase = Phase.brk := by
  decide

/-- Claim C3 (corrected): pausing during a running break yields a paused
state whose phase is break, so the claimed invariant fails; the
invariant the operations do preserve is the weaker one that phase is
break only when status is running, break_ready, or paused — never
idle. -/
theorem c3_weak_invariant (s : SessionState) (now : Nat) (f b : Option Nat)
    (h : breakImpliesActive s) :
    breakImpliesActive (startSession now f b s) ∧
    breakImpliesActive (pauseSession now s) ∧
    breakImpliesActive (resumeSession now s) ∧
    breakImpliesActive (stopSession s) ∧
    breakImpliesActive (setDurations now f b s) ∧
    breakImpliesActive (startBreak now s) ∧
    breakImpliesActive (normalizeState now s) := by
  refine ⟨?_, ?_, ?_, ?_, ?_, ?_, ?_⟩
  · simp [startSession, breakImpliesActive]
  · unfold pauseSession
    split
    · simp [breakImpliesActive]
    · exact h
  · unfold resumeSession
    split
    · simp [breakImpliesActive]
    · exact h
  · simp [stopSession, breakImpliesActive]
  · unfold setDurations
    split_ifs with h1 h2 h3
    · simp [adjustRunningDurations, breakImpliesActive, h1]
    · simp [breakImpliesActive, h2]
    · simp [breakImpliesActive]
    · simpa [breakImpliesActive] using h
  · unfold startBreak
    split
    · simp [breakImpliesActive]
    · exact h
  · unfold normalizeState
    split_ifs with h1 h2 h3
    · cases hr : s.remainingMs <;> simp [breakImpliesActive, h1]
    · simp [breakImpliesActive]
    · simp [breakImpliesActive, h2.1]
    · exact h

/-- Witness for C3: the weak invariant holds of the default state and is
preserved by normalization there. -/
theorem c3_witness :
    breakImpliesActive DEFAULT_STATE ∧
    breakImpliesActive (normalizeState 5 DEFAULT_STATE) :=
  ⟨by unfold breakImpliesActive; decide,
   (c3_weak_invariant DEFAULT_STATE 5 none none
     (by unfold breakImpliesActive; decide)).2.2.2.2.2.2⟩

end XUnderclass

namespace XUnderclass

lemma normalize_focus_expired (s : SessionState) (now nt : Nat)
    (hst : s.status = Status.running) (hph : s.phase = Phase.focus)
    (hnt : s.nextTransition = some nt) (h0 : nt ≠ 0) (hle : nt ≤ now) :
    normalizeState now s =
      { s with status := Status.break_ready
               phase := Phase.brk
               cycleStart := none
               nextTransition := none
               remainingMs := some (toMs s.breakMinutes) } := by
  have htr : truthy s.nextTransition := by rw [hnt]; exact h0
  have hexp : expired s.nextTransition now := by rw [hnt]; exact hle
  unfold normalizeState
  rw [if_neg (by rw [hst]; simp), if_neg (not_not_intro ⟨hst, htr⟩), if_pos ⟨hph, hexp⟩]

lemma normalize_stuck (s : SessionState) (now : Nat)
    (h : ¬ (s.status = Status.running ∧ truthy s.nextTransition))
    (hbr : s.status ≠ Status.break_ready) :
    normalizeState now s = s := by
  unfold normalizeState
  rw [if_neg hbr, if_pos h]

lemma catchUp_stop (f b now fuel : Nat) (ph : Phase) (cs : Option Nat) (t : Nat)
    (h : ¬ t ≤ now) :
    catchUp f b now fuel ph cs (some t) = (ph, cs, some t) := by
  cases fuel <;> simp [catchUp, h]

lemma catchUp_step_brk (f b now fuel : Nat) (cs : Option Nat) (t : Nat)
    (h : t ≤ now) :
    catchUp f b now (fuel + 1) Phase.brk cs (some t) =
      catchUp f b now fuel Phase.focus (some t) (some (t + f)) := by
  simp [catchUp, h]

lemma normalize_brk_step (s : SessionState) (now nt : Nat)
    (hst : s.status = Status.running) (hph : s.phase = Phase.brk)
    (hnt : s.nextTransition = some nt) (h0 : nt ≠ 0) (hle : nt ≤ now)
    (hlt : now < nt + toMs s.focusMinutes) :
    normalizeState now s =
      { s with phase := Phase.focus
               cycleStart := some nt
               nextTransition := some (nt + toMs s.focusMinutes) } := by
  have htr : truthy s.nextTransition := by rw [hnt]; exact h0
  unfold normalizeState
  rw [if_neg (by rw [hst]; simp), if_neg (not_not_intro ⟨hst, htr⟩),
    if_neg (by rintro ⟨hf, -⟩; rw [hph] at hf; cases hf)]
  rw [hph, hnt]
  have h1000 : (1000 : Nat) = 999 + 1 := rfl
  rw [h1000, catchUp_step_brk _ _ _ _ _ _ hle,
    catchUp_stop _ _ _ _ _ _ _ (Nat.not_le.mpr hlt)]

/-- Claim C1 counterexample: the GET_STATE handler only calls
`ensureState` (load and merge over defaults) and never normalizes, so at
time 2000 it returns the stored running/focus state with the elapsed
nextTransition 1000 unchanged — a state read does return a running/focus
state whose nextTransition has already elapsed. -/
theorem c1_counterexample :
    runCommand 2000 Request.getState (some c1_state) =
      some (c1_state, some c1_state) ∧
    c1_state.status = Status.running ∧ c1_state.phase = Phase.focus ∧
    expired c1_state.nextTransition 2000 := by
  decide

/-- Claim C1 (corrected): for a persisted running/focus state whose
nextTransition has elapsed, the scheduled alarm handler does advance to
break_ready with phase break, remainingMs = breakMinutes as ms, and
cycleStart/nextTransition cleared; the GET_STATE command, however,
returns the stored state merged over defaults without normalization. -/
theorem c1_alarm_advances_getState_raw (s : SessionState) (now nt : Nat)
    (hst : s.status = Status.running) (hph : s.phase = Phase.focus)
    (hnt : s.nextTransition = some nt) (hle : nt ≤ now)
    (hbm : 1 ≤ s.breakMinutes) :
    handleAlarm now s =
      { s with status := Status.break_ready
               phase := Phase.brk
               cycleStart := none
               nextTransition := none
               remainingMs := some (s.breakMinutes * 60000) } ∧
    runCommand now Request.getState (some s) = some (s, some s) := by
  refine ⟨?_, rfl⟩
  have hexp : expired s.nextTransition now := by rw [hnt]; exact hle
  unfold handleAlarm
  rw [if_pos ⟨hst, hph, hexp⟩]
  by_cases h0 : nt = 0
  · have hnottr : ¬ (s.status = Status.running ∧ truthy s.nextTransition) := by
      rintro ⟨-, ht⟩
      rw [hnt] at ht
      exact ht h0
    rw [normalize_stuck s now hnottr (by rw [hst]; simp)]
    unfold transitionToBreakReady
    rw [toMs_of_le hbm]
  · rw [normalize_focus_expired s now nt hst hph hnt h0 hle]
    unfold transitionToBreakReady
    have : toMs s.breakMinutes = s.breakMinutes * 60000 := toMs_of_le hbm
    simp [this]

/-- Witness for C1: the alarm at time 2000 advances the stored state
while GET_STATE returns it raw. -/
theorem c1_witness :
    handleAlarm 2000 c1_state =
      { c1_state with status := Status.break_ready
                      phase := Phase.brk
                      cycleStart := none
                      nextTransition := none
                      remainingMs := some (c1_state.breakMinutes * 60000) } ∧
    runCommand 2000 Request.getState (some c1_state) =
      some (c1_state, some c1_state) :=
  c1_alarm_advances_getState_raw c1_state 2000 1000 rfl rfl rfl (by decide) (by decide)

/-- Claim C2 counterexample: normalizing `c2_state` at time 121000
fast-forwards through the elapsed break (ending 60000) and through the
following focus interval (60000 to 120000, also elapsed), and ends in a
running/break state — the elapsed focus interval did not produce
break_ready, contradicting the claim that a catch-up over an elapsed
focus interval always yields break_ready and never running/break. -/
theorem c2_counterexample :
    (normalizeState 121000 c2_state).status = Status.running ∧
    (normalizeState 121000 c2_state).phase = Phase.brk ∧
    (normalizeState 121000 c2_state).cycleStart = some 120000 ∧
    (normalizeState 121000 c2_state).nextTransition = some 180000 := by
  decide

/-- Claim C2 (corrected): when normalization is entered on a
running/focus state whose nextTransition has elapsed (and is truthy) the
result is break_ready, and an elapsed running break auto-advances to the
next running/focus cycle; but inside the catch-up loop — entered from an
elapsed break — subsequent elapsed focus intervals are fast-forwarded
directly into running/break without a break_ready stop. -/
theorem c2_focus_end_vs_catchup (s : SessionState) (now nt : Nat) :
    (s.status = Status.running → s.phase = Phase.focus →
      s.nextTransition = some nt → nt ≠ 0 → nt ≤ now →
      (normalizeState now s).status = Status.break_ready ∧
      (normalizeState now s).phase = Phase.brk ∧
      (normalizeState now s).remainingMs = some (toMs s.breakMinutes)) ∧
    (s.status = Status.running → s.phase = Phase.brk →
      s.nextTransition = some nt → nt ≠ 0 → nt ≤ now →
      now < nt + toMs s.focusMinutes →
      normalizeState now s =
        { s with phase := Phase.focus
                 cycleStart := some nt
                 nextTransition := some (nt + toMs s.focusMinutes) }) := by
  constructor
  · intro hst hph hnt h0 hle
    rw [normalize_focus_expired s now nt hst hph hnt h0 hle]
    exact ⟨rfl, rfl, rfl⟩
  · intro hst hph hnt h0 hle hlt
    exact normalize_brk_step s now nt hst hph hnt h0 hle hlt

/-- Witness for C2: a focus state expired at read time, and a break
state one step past its end. -/
theorem c2_witness :
    (normalizeState 2000 c1_state).status = Status.break_ready ∧
    normalizeState 61000 c2_state =
      { c2_state with phase := Phase.focus
                      cycleStart := some 60000
                      nextTransition := some (60000 + toMs c2_state.focusMinutes) } :=
  ⟨((c2_focus_end_vs_catchup c1_state 2000 1000).1 rfl rfl rfl (by decide) (by decide)).1,
   (c2_focus_end_vs_catchup c2_state 61000 60000).2 rfl rfl rfl (by decide) (by decide)
     (by decide)⟩

end XUnderclass

namespace XUnderclass

/-- Claim C6 (confirmed): while running, `setDurations` re-derives
cycleStart and nextTransition by keeping the elapsed time of the current
phase clamped to the new duration of that phase; when the new duration
does not exceed the elapsed time the new nextTransition equals now (zero
remaining), and the next normalization at that instant transitions
immediately — a focus phase to break_ready, a break phase onward to the
next running focus cycle. -/
theorem c6_set_durations_running (s : SessionState) (now cs f b : Nat)
    (hst : s.status = Status.running) (hcs : s.cycleStart = some cs) :
    ((setDurations now (some f) (some b) s).cycleStart =
      some (now - min (now - cs)
        (if s.phase = Phase.focus then toMs f else toMs b))) ∧
    ((setDurations now (some f) (some b) s).nextTransition =
      some (now + ((if s.phase = Phase.focus then toMs f else toMs b) -
        min (now - cs) (if s.phase = Phase.focus then toMs f else toMs b)))) ∧
    ((if s.phase = Phase.focus then toMs f else toMs b) ≤ now - cs →
      (setDurations now (some f) (some b) s).nextTransition = some now) ∧
    (s.phase = Phase.focus →
      (if s.phase = Phase.focus then toMs f else toMs b) ≤ now - cs → 0 < now →
      (normalizeState now (setDurations now (some f) (some b) s)).status =
        Status.break_ready) ∧
    (s.phase = Phase.brk →
      (if s.phase = Phase.focus then toMs f else toMs b) ≤ now - cs → 0 < now →
      (normalizeState now (setDurations now (some f) (some b) s)).status =
        Status.running ∧
      (normalizeState now (setDurations now (some f) (some b) s)).phase =
        Phase.focus) := by
  obtain ⟨st, ph, fm, bm, cso, nto, rm⟩ := s
  simp only at hst hcs
  subst hst
  subst hcs
  have hu : setDurations now (some f) (some b)
      (SessionState.mk Status.running ph fm bm (some cs) nto rm) =
      SessionState.mk Status.running ph (minutesFromMs (toMs f)) (minutesFromMs (toMs b))
        (some (now - min (now - cs) (if ph = Phase.focus then toMs f else toMs b)))
        (some (now + ((if ph = Phase.focus then toMs f else toMs b) -
          min (now - cs) (if ph = Phase.focus then toMs f else toMs b))))
        rm := by
    unfold setDurations adjustRunningDurations
    rw [if_pos rfl]
    rfl
  refine ⟨?_, ?_, ?_, ?_, ?_⟩
  · rw [hu]
  · rw [hu]
  · intro hle
    have hle' : (if ph = Phase.focus then toMs f else toMs b) ≤ now - cs := hle
    rw [hu]
    show some (now + ((if ph = Phase.focus then toMs f else toMs b) -
      min (now - cs) (if ph = Phase.focus then toMs f else toMs b))) = some now
    rw [Nat.min_eq_right hle', Nat.sub_self, Nat.add_zero]
  · intro hph hle hpos
    have hph' : ph = Phase.focus := hph
    have hle' : (if ph = Phase.focus then toMs f else toMs b) ≤ now - cs := hle
    have hv : setDurations now (some f) (some b)
        (SessionState.mk Status.running ph fm bm (some cs) nto rm) =
        SessionState.mk Status.running ph (minutesFromMs (toMs f)) (minutesFromMs (toMs b))
          (some (now - (if ph = Phase.focus then toMs f else toMs b)))
          (some now) rm := by
      rw [hu, Nat.min_eq_right hle', Nat.sub_self, Nat.add_zero]
    rw [hv, normalize_focus_expired _ now now rfl hph' rfl
      (Nat.pos_iff_ne_zero.mp hpos) (Nat.le_refl now)]
  · intro hph hle hpos
    have hph' : ph = Phase.brk := hph
    have hle' : (if ph = Phase.focus then toMs f else toMs b) ≤ now - cs := hle
    have hv : setDurations now (some f) (some b)
        (SessionState.mk Status.running ph fm bm (some cs) nto rm) =
        SessionState.mk Status.running ph (minutesFromMs (toMs f)) (minutesFromMs (toMs b))
          (some (now - (if ph = Phase.focus then toMs f else toMs b)))
          (some now) rm := by
      rw [hu, Nat.min_eq_right hle', Nat.sub_self, Nat.add_zero]
    rw [hv, normalize_brk_step _ now now rfl hph' rfl
      (Nat.pos_iff_ne_zero.mp hpos) (Nat.le_refl now)
      (Nat.lt_add_of_pos_right (toMs_pos _))]
    exact ⟨rfl, rfl⟩

/-- Witness for C6: shrinking a 25-minute focus to 1 minute after
600000 ms elapsed yields zero remaining time, and normalization at the
same instant transitions to break_ready. -/
theorem c6_witness :
    (setDurations 600000 (some 1) (some 1) c6_state).nextTransition =
      some 600000 ∧
    (normalizeState 600000 (setDurations 600000 (some 1) (some 1) c6_state)).status =
      Status.break_ready :=
  ⟨(c6_set_durations_running c6_state 600000 0 1 1 rfl rfl).2.2.1 (by decide),
   (c6_set_durations_running c6_state 600000 0 1 1 rfl rfl).2.2.2.1 rfl
     (by decide) (by decide)⟩

end XUnderclass
